import Mathlib

/-!
Verification development for the `smser` SMS-to-MQTT gateway.

The definitions below are a shallow embedding of the Python sources
(`SMSReader.py`, `main.py`, `RedisClient.py`, `MQTTPublisher.py`).
Pure string manipulation is embedded directly; side effects (serial I/O,
Redis calls, MQTT calls, logging) are made explicit: external outcomes
become parameters, and emitted commands / log records become explicit
output values.  Timestamps (`datetime.timestamp()` on naive datetimes)
are interpreted with the local timezone fixed to UTC, and characters are
assumed to be in the ASCII range where Python's `str.isdigit` /
`str.strip` would otherwise consider further Unicode classes.
-/

/-! ## Python string semantics helpers -/

/-- Whitespace characters stripped by Python's `str.strip()` (ASCII range). -/
def isPyWs (c : Char) : Bool :=
  c == ' ' || c == '\t' || c == '\n' || c == '\x0d' || c == '\x0b' || c == '\x0c'

/-- Strip characters satisfying `p` from both ends of a character list. -/
def stripChars (p : Char → Bool) (l : List Char) : List Char :=
  ((l.dropWhile p).reverse.dropWhile p).reverse

/-- Python `s.strip()` (whitespace from both ends). -/
def pyStrip (s : String) : String :=
  (stripChars isPyWs s.toList).asString

/-- Python `s.strip('"')` (double quotes from both ends). -/
def stripQuotes (s : String) : String :=
  (stripChars (fun c => c == '"') s.toList).asString

/-- Split a character list on a separator character, keeping empty pieces
(Python `str.split(sep)` for a one-character separator). -/
def splitChar (sep : Char) : List Char → List (List Char)
  | [] => [[]]
  | c :: rest =>
    let tail := splitChar sep rest
    if c == sep then [] :: tail
    else
      match tail with
      | [] => [[c]]
      | piece :: more => (c :: piece) :: more

/-- Python `s.split(sep)` for a one-character separator. -/
def pySplit (sep : Char) (s : String) : List String :=
  (splitChar sep s.toList).map List.asString

/-- Python `s.startswith(p)`. -/
def pyStartsWith (p s : String) : Bool :=
  p.toList.isPrefixOf s.toList

/-- Python `needle in hay` substring containment. -/
def pyContains (needle : String) (hay : String) : Bool :=
  go needle.toList hay.toList
where
  go (n : List Char) : List Char → Bool
    | [] => n.isEmpty
    | c :: rest => n.isPrefixOf (c :: rest) || go n rest

/-! ## `datetime.strptime(date, "%y/%m/%d %H:%M:%S")`

Python's `_strptime` compiles the format to a regex:
`%y` matches exactly two digits; `%m`, `%d`, `%H`, `%M`, `%S` match one
or two digits constrained to the field's range (ordered alternation,
two-digit alternatives first); a space in the format matches a run of
whitespace; the whole input must be consumed.  The matched fields are
then validated by the `datetime` constructor (day against the month's
length, seconds at most 59). -/

structure DateTime6 where
  year : Nat
  month : Nat
  day : Nat
  hour : Nat
  minute : Nat
  second : Nat
deriving Repr, DecidableEq

/-- Numeric value of an ASCII digit, `none` otherwise. -/
def digitVal (c : Char) : Option Nat :=
  if c.isDigit then some (c.toNat - 48) else none

/-- Match one or two digits with ordered backtracking: first try the
two-digit reading (if in range `valid2`), and if the continuation fails,
the one-digit reading (if in range `valid1`).  This mirrors the ordered
regex alternation Python compiles for `%m`, `%d`, `%H`, `%M`, `%S`. -/
def parse2or1 {α : Type} (valid2 valid1 : Nat → Bool)
    (l : List Char) (k : Nat → List Char → Option α) : Option α :=
  match l with
  | c1 :: c2 :: rest =>
    match digitVal c1, digitVal c2 with
    | some a, some b =>
      let two := if valid2 (10 * a + b) then k (10 * a + b) rest else none
      match two with
      | some r => some r
      | none => if valid1 a then k a (c2 :: rest) else none
    | some a, none => if valid1 a then k a (c2 :: rest) else none
    | none, _ => none
  | [c1] =>
    match digitVal c1 with
    | some a => if valid1 a then k a [] else none
    | none => none
  | [] => none

/-- Match exactly two digits (Python's `%y`). -/
def parseY2 {α : Type} (l : List Char) (k : Nat → List Char → Option α) : Option α :=
  match l with
  | c1 :: c2 :: rest =>
    match digitVal c1, digitVal c2 with
    | some a, some b => k (10 * a + b) rest
    | _, _ => none
  | _ => none

/-- Match one literal character. -/
def expectChar {α : Type} (c : Char) (l : List Char) (k : List Char → Option α) : Option α :=
  match l with
  | x :: rest => if x == c then k rest else none
  | [] => none

/-- Match one or more whitespace characters (a space in the format). -/
def expectWs {α : Type} (l : List Char) (k : List Char → Option α) : Option α :=
  match l with
  | x :: rest => if isPyWs x then k (rest.dropWhile isPyWs) else none
  | [] => none

def isLeapYear (y : Nat) : Bool :=
  (y % 4 == 0 && y % 100 != 0) || y % 400 == 0

def daysInMonth (y m : Nat) : Nat :=
  if m == 2 then (if isLeapYear y then 29 else 28)
  else if m == 4 || m == 6 || m == 9 || m == 11 then 30
  else 31

/-- Python's `%y` pivot: two-digit years 0–68 mean 2000–2068, 69–99 mean 1969–1999. -/
def pivotYear (y2 : Nat) : Nat :=
  if y2 ≤ 68 then 2000 + y2 else 1900 + y2

/-- `datetime.strptime(s, "%y/%m/%d %H:%M:%S")`: `none` models the
`ValueError` raised on a non-matching string or an invalid calendar
date. -/
def strptime_yMd_HMS (s : String) : Option DateTime6 :=
  let r :=
    parseY2 s.toList (fun y2 l1 =>
    expectChar '/' l1 (fun l2 =>
    parse2or1 (fun n => 1 ≤ n && n ≤ 12) (fun n => 1 ≤ n && n ≤ 9) l2 (fun mo l3 =>
    expectChar '/' l3 (fun l4 =>
    parse2or1 (fun n => 1 ≤ n && n ≤ 31) (fun n => 1 ≤ n && n ≤ 9) l4 (fun d l5 =>
    expectWs l5 (fun l6 =>
    parse2or1 (fun n => n ≤ 23) (fun n => n ≤ 9) l6 (fun hh l7 =>
    expectChar ':' l7 (fun l8 =>
    parse2or1 (fun n => n ≤ 59) (fun n => n ≤ 9) l8 (fun mi l9 =>
    expectChar ':' l9 (fun l10 =>
    parse2or1 (fun n => n ≤ 61) (fun n => n ≤ 9) l10 (fun ss l11 =>
    if l11.isEmpty then some (DateTime6.mk (pivotYear y2) mo d hh mi ss) else none
    )))))))))))
  match r with
  | some dt =>
    if dt.day ≤ daysInMonth dt.year dt.month && dt.second ≤ 59 then some dt else none
  | none => none

/-- Days between a civil date and 1970-01-01 (Howard Hinnant's algorithm;
all intermediate quantities are nonnegative for the years `%y` can
produce, so truncating division agrees with floor division). -/
def daysFromCivil (y : Nat) (m : Nat) (d : Nat) : Int :=
  let yy : Int := if m ≤ 2 then (y : Int) - 1 else (y : Int)
  let era : Int := yy / 400
  let yoe : Int := yy - era * 400
  let mp : Int := if m > 2 then (m : Int) - 3 else (m : Int) + 9
  let doy : Int := (153 * mp + 2) / 5 + (d : Int) - 1
  let doe : Int := yoe * 365 + yoe / 4 - yoe / 100 + doy
  era * 146097 + doe - 719468

/-- `int(dt.timestamp())` for a naive datetime, with the local timezone
fixed to UTC. -/
def timestampOf (dt : DateTime6) : Int :=
  daysFromCivil dt.year dt.month dt.day * 86400
    + dt.hour * 3600 + dt.minute * 60 + dt.second

/-! ## `SMSReader._parse_sms_message`

The Python parser builds `dict` objects and appends *references* to them
into `messages`; after a header with fewer than six fields the reference
in `current_msg` is left untouched, so later body lines keep mutating a
dict that may already sit inside `messages`.  To stay faithful to this
aliasing the embedding keeps a `store` of allocated message dicts and
`flushed` holds store positions; dicts are resolved against the final
store only when the function returns. -/

namespace SMSReaderModel

structure Msg where
  index : String
  status : String
  sender : String
  timestamp : Int
  body : String
deriving Repr, DecidableEq, Inhabited

structure ParseState where
  store : List Msg
  flushed : List Nat
  current : Option Nat
  warnings : Nat
deriving Repr, DecidableEq

def storeGet (store : List Msg) (i : Nat) : Msg :=
  store.getD i default

/-- The body of the `try` block for a header line that already passed the
`len(parts) >= 6` test: field extraction plus `strptime`; `none` models
the `(IndexError, ValueError)` branch that logs a warning and resets
`current_msg` to `None`.  The `"1/1/1970 00:00:00"` default is only
reachable when `parts[4]` or `parts[5]` is missing, which the caller's
length test already rules out (and that default string itself does not
match the `strptime` format). -/
def parseHeaderFields (parts : List String) : Option Msg :=
  match pySplit ':' (parts.getD 0 "") with
  | _ :: idxPiece :: _ =>
    let index := pyStrip idxPiece
    let status := stripQuotes (pyStrip (parts.getD 1 ""))
    let sender := stripQuotes (pyStrip (parts.getD 2 ""))
    let date :=
      match parts.get? 4, parts.get? 5 with
      | some p4, some p5 =>
        stripQuotes (pyStrip p4) ++ " " ++ (pySplit '+' (pyStrip p5)).headD ""
      | _, _ => "1/1/1970 00:00:00"
    match strptime_yMd_HMS date with
    | some dt => some (Msg.mk index status sender (timestampOf dt) "")
    | none => none
  | _ => none

/-- The "save previous message" step at the top of the header branch:
the open record is flushed when its body is non-empty — the status test
is commented out in the source at this point. -/
def flushMidParse (st : ParseState) : ParseState :=
  match st.current with
  | some i =>
    if (storeGet st.store i).body ≠ "" then
      { st with flushed := st.flushed ++ [i] }
    else st
  | none => st

/-- One iteration of the parser's `for line in lines` loop. -/
def processLine (st : ParseState) (rawLine : String) : ParseState :=
  let line := pyStrip rawLine
  if line == "" then st
  else if pyStartsWith "+CMGL:" line then
    let st1 := flushMidParse st
    let parts := pySplit ',' line
    if parts.length ≥ 6 then
      match parseHeaderFields parts with
      | some msg =>
        { st1 with store := st1.store ++ [msg], current := some st1.store.length }
      | none =>
        { st1 with current := none, warnings := st1.warnings + 1 }
    else
      st1
  else
    match st.current with
    | some i =>
      if pyStartsWith "OK" line || pyStartsWith "ERROR" line then st
      else
        let old := storeGet st.store i
        let updated := { old with body := old.body ++ line ++ "\n" }
        { st with store := st.store.set i updated }
    | none => st

/-- The flush after the loop: the last open record is kept only when its
body is non-empty and its status is exactly the unread state. -/
def finalFlush (st : ParseState) : ParseState :=
  match st.current with
  | some i =>
    if (storeGet st.store i).body ≠ "" &&
        (storeGet st.store i).status == "REC UNREAD" then
      { st with flushed := st.flushed ++ [i] }
    else st
  | none => st

def initState : ParseState := ParseState.mk [] [] none 0

def runParse (lines : List String) : ParseState :=
  finalFlush (lines.foldl processLine initState)

/-- The list `_parse_sms_message` returns: the flushed references
resolved against the final store. -/
def parse_sms_message (lines : List String) : List Msg :=
  let st := runParse lines
  st.flushed.map (storeGet st.store)

/-- Number of "Failed to parse SMS header" warnings the parser logs. -/
def parse_warnings (lines : List String) : Nat :=
  (runParse lines).warnings

/-- Indices passed to `delete_sms` by the loop at the end of
`_parse_sms_message`, in order. -/
def parse_deletes (lines : List String) : List String :=
  (parse_sms_message lines).map (fun m => m.index)

end SMSReaderModel

/-! ## One cycle of `main.read_sms_thread`

`read_sms` sends `AT+CMGL="REC UNREAD"`, splits the response and calls
`_parse_sms_message`; the latter issues one `delete_sms` per returned
message before returning.  The thread then, if the list is non-empty,
pushes the whole batch through one Redis pipeline and deletes every
message a second time.  The observable commands of one cycle are
recorded as an event trace. -/

inductive Event where
  | deleteSms (index : String)
  | rpushBatch (queue : String) (batch : List SMSReaderModel.Msg)
deriving Repr, DecidableEq

open SMSReaderModel in
/-- Event trace of one iteration of `read_sms_thread`, given the lines of
the modem's response to the list command. -/
def read_sms_thread_cycle (queue : String) (lines : List String) : List Event :=
  let msgs := parse_sms_message lines
  let parseDeletes := (parse_deletes lines).map Event.deleteSms
  if msgs.isEmpty then parseDeletes
  else
    parseDeletes ++ [Event.rpushBatch queue msgs]
      ++ msgs.map (fun m => Event.deleteSms m.index)

/-- `true` iff every `deleteSms` event in the trace is preceded by some
`rpushBatch` event (append-then-delete ordering). -/
def deletesOnlyAfterAppend (tr : List Event) : Bool :=
  go false tr
where
  go (seenAppend : Bool) : List Event → Bool
    | [] => true
    | Event.deleteSms _ :: rest => seenAppend && go seenAppend rest
    | Event.rpushBatch _ _ :: rest => go true rest

/-- Number of `deleteSms idx` events in a trace. -/
def countDelete (idx : String) (tr : List Event) : Nat :=
  tr.countP (fun e =>
    match e with
    | Event.deleteSms i => i == idx
    | _ => false)

/-! ## `CheckModemPort`

`check_at_command` opens the candidate port, writes the probe, reads the
reply, closes the port and tests for the affirmative token; a
`SerialException` anywhere in the `try` block returns `False`.  The
serial device's behaviour is abstracted by which steps raise and what
the read returns; the embedding additionally reports whether the port
was still open when the function returned, which the code leaves true
when the exception strikes between `open` and `close`. -/

namespace CheckModemPortModel

/-- Abstract behaviour of one candidate serial device during a probe:
whether `serial.Serial(...)`, `ser.write` and `ser.read_all` raise
`SerialException`, and the decoded reply text when the read succeeds. -/
structure ProbeBehavior where
  openRaises : Bool
  writeRaises : Bool
  readRaises : Bool
  reply : String
deriving Repr, DecidableEq

structure ProbeOutcome where
  accepted : Bool
  portLeftOpen : Bool
deriving Repr, DecidableEq

/-- `CheckModemPort.check_at_command`. -/
def check_at_command (b : ProbeBehavior) : ProbeOutcome :=
  if b.openRaises then ProbeOutcome.mk false false
  else if b.writeRaises then ProbeOutcome.mk false true
  else if b.readRaises then ProbeOutcome.mk false true
  else
    let response := pyStrip b.reply
    ProbeOutcome.mk (pyContains "OK" response) false

/-- `CheckModemPort.find_port`: scan the candidates in order, break on the
first accepted one; when the loop falls through, the `for`/`else` branch
logs a warning and `at_port` is still `None`. -/
def find_port : List (String × ProbeBehavior) → Option String
  | [] => none
  | (device, b) :: rest =>
    if (check_at_command b).accepted then some device else find_port rest

end CheckModemPortModel

/-! ## Startup discovery in `main` -/

inductive Startup where
  | aborted : Startup
  | proceedsWith (serialPort : Option String) : Startup
deriving Repr, DecidableEq

open CheckModemPortModel in
/-- The discovery phase of `main` (`main.py` lines 129–138): when no
serial port is configured, `CheckModemPort().find_port()` is called
inside a `try` whose `except` branch returns from `main`; but
`find_port` handles probe failures internally and returns `None` rather
than raising, so the `except` branch is unreachable in this model and
`main` proceeds to construct `SMSReader(serial_port, ...)` with whatever
`find_port` returned. -/
def mainDiscovery (configuredPort : Option String)
    (ports : List (String × ProbeBehavior)) : Startup :=
  match configuredPort with
  | none => Startup.proceedsWith (find_port ports)
  | some p =>
    if p == "" then Startup.proceedsWith (find_port ports)
    else Startup.proceedsWith (some p)

/-! ## `RedisClient`

Each adapter method wraps one client call in `try`/`except Exception`:
the exception is logged and the method falls off its end, returning
`None`.  The underlying call's outcome is abstracted as an `Except`
value (`.error` = the client raised). -/

namespace RedisClientModel

/-- `RedisClient.rpush`: returns the new length, or `None` when the
underlying call raised (the exception is logged and swallowed). -/
def rpush (res : Except String Nat) : Option Nat :=
  match res with
  | Except.ok n => some n
  | Except.error _ => none

/-- `RedisClient.blpop`: returns the popped `(queue, value)` pair, `None`
on timeout — and also `None` when the underlying call raised (the
exception is logged and swallowed). -/
def blpop (res : Except String (Option (String × String))) :
    Option (String × String) :=
  match res with
  | Except.ok v => v
  | Except.error _ => none

end RedisClientModel

/-! ## `MQTTPublisher.publish` -/

namespace MQTTPublisherModel

/-- `''.join(filter(str.isdigit, s))` (ASCII digits). -/
def digitsOnly (s : String) : String :=
  (s.toList.filter Char.isDigit).asString

/-- Hex digit characters for `\uXXXX` escapes. -/
def hexDigit (n : Nat) : Char :=
  if n < 10 then Char.ofNat (48 + n) else Char.ofNat (87 + (n % 16))

/-- `json.dumps` escaping of one character (default `ensure_ascii=True`;
code points beyond the BMP are outside the scope of this model). -/
def jsonEscapeChar (c : Char) : List Char :=
  if c == '"' then ['\\', '"']
  else if c == '\\' then ['\\', '\\']
  else if c == '\n' then ['\\', 'n']
  else if c == '\x0d' then ['\\', 'r']
  else if c == '\t' then ['\\', 't']
  else if c.toNat == 8 then ['\\', 'b']
  else if c.toNat == 12 then ['\\', 'f']
  else if c.toNat < 32 || c.toNat > 126 then
    '\\' :: 'u' :: [hexDigit ((c.toNat / 4096) % 16), hexDigit ((c.toNat / 256) % 16),
      hexDigit ((c.toNat / 16) % 16), hexDigit (c.toNat % 16)]
  else [c]

/-- `json.dumps` of a Python string. -/
def jsonDumpsStr (s : String) : String :=
  (('"' :: (s.toList.flatMap jsonEscapeChar)) ++ ['"']).asString

/-- Result of one `publish` call: the boolean the method returns, the
message dict as the caller sees it afterwards (line 66 mutates the
caller's dict in place), and the topic/payload handed to
`client.publish`. -/
structure PublishResult where
  ok : Bool
  message : SMSReaderModel.Msg
  topic : String
  payload : String
deriving Repr, DecidableEq

/-- `MQTTPublisher.publish(message)`.  `rc` abstracts the result code the
paho client reports; `MQTT_ERR_SUCCESS` is 0.  With all five keys
present and a string body, nothing in the `try` block raises, so the
`except` branch returning `False` is not reachable in this model. -/
def publish (message : SMSReaderModel.Msg) (rc : Nat) : PublishResult :=
  let payload := jsonDumpsStr message.body
  let message' := { message with sender := digitsOnly message.sender }
  let topic := "modem/" ++ message'.sender ++ "/" ++ toString message'.timestamp
  PublishResult.mk (rc == 0) message' topic payload

end MQTTPublisherModel

/-! ## Concrete payloads used by the claims -/

namespace SMSReaderModel

/-- A payload whose first record is a read (`REC READ`) message with a
non-empty body, followed by an unread record. -/
def linesReadThenUnread : List String :=
  ["+CMGL: 1,\"REC READ\",\"+111\",,\"24/01/15,10:30:00+00\"",
   "hello",
   "+CMGL: 2,\"REC UNREAD\",\"+222\",,\"24/01/15,10:31:00+00\"",
   "world"]

def msgRead : Msg := Msg.mk "1" "REC READ" "+111" 1705314600 "hello\n"

def msgUnread : Msg := Msg.mk "2" "REC UNREAD" "+222" 1705314660 "world\n"

/-- A payload whose single record carries a malformed date field. -/
def linesBadDate : List String :=
  ["+CMGL: 7,\"REC UNREAD\",\"+333\",,\"xx/yy/zz,10:30:00+00\"",
   "payload"]

/-- A payload with a full unread record, then a header with only two
comma-separated fields, then a further body line. -/
def linesShortHeader : List String :=
  ["+CMGL: 1,\"REC UNREAD\",\"+111\",,\"24/01/15,10:30:00+00\"",
   "a",
   "+CMGL: 9,\"REC UNREAD\"",
   "b"]

def msgShortHeaderVictim : Msg := Msg.mk "1" "REC UNREAD" "+111" 1705314600 "a\nb\n"

/-- A payload with exactly one well-formed unread record. -/
def linesOneUnread : List String :=
  ["+CMGL: 3,\"REC UNREAD\",\"+15550001234\",,\"24/01/15,10:30:00+00\"",
   "Hello"]

def msgOneUnread : Msg := Msg.mk "3" "REC UNREAD" "+15550001234" 1705314600 "Hello\n"

end SMSReaderModel

/-! ## Shared helper lemmas -/

open SMSReaderModel

/-- Shape of one ingestion cycle's event trace when parsing produced at
least one message: the parser's own deletions first, then the single
batch append, then the thread's second round of deletions. -/
theorem read_sms_thread_cycle_eq (q : String) (lines : List String)
    (h : parse_sms_message lines ≠ []) :
    read_sms_thread_cycle q lines =
      ((parse_sms_message lines).map fun m => Event.deleteSms m.index)
        ++ (Event.rpushBatch q (parse_sms_message lines)
            :: (parse_sms_message lines).map fun m => Event.deleteSms m.index) := by
  have hne : (parse_sms_message lines).isEmpty = false :=
    List.isEmpty_eq_false.mpr h
  unfold read_sms_thread_cycle
  simp [parse_deletes, hne, List.map_map, Function.comp]

/-- `flushMidParse` can only extend `flushed`; the open record, the
store and the warning count are untouched. -/
theorem flushMidParse_frame (st : ParseState) :
    (flushMidParse st).current = st.current ∧
    (flushMidParse st).warnings = st.warnings ∧
    (flushMidParse st).store = st.store := by
  unfold flushMidParse
  cases h : st.current with
  | none => exact ⟨h, rfl, rfl⟩
  | some i =>
    by_cases hb : (storeGet st.store i).body ≠ ""
    · simp [hb, h]
    · simp [hb, h]

/-! ## Claim theorems -/

example : strptime_yMd_HMS "24/01/15 10:30:00" =
    some (DateTime6.mk 2024 1 15 10 30 0) := by decide

example : timestampOf (DateTime6.mk 2024 1 15 10 30 0) = 1705314600 := by decide

example : parse_sms_message linesOneUnread = [msgOneUnread] := by decide

/-- Claim C1: the spec states that a header line flushes the previously
open record into the result set only if that record's status is
`REC UNREAD` (and its body non-empty), so that parsing yields exactly
one Message per unread header.  The code's mid-parse flush tests only
the body — the status test is commented out — so a payload whose first
record is `REC READ` with a non-empty body still contributes that read
record to the result, contradicting the parser's own docstring
("Only messages with status 'REC UNREAD' are collected"). -/
theorem C1_mid_flush_ignores_status :
    parse_sms_message linesReadThenUnread = [msgRead, msgUnread] ∧
    msgRead.status = "REC READ" := by
  constructor
  · decide
  · rfl

/-- Claim C2: the spec's append-then-delete ordering fails on the code:
in one ingestion cycle each record is deleted inside
`_parse_sms_message` before the list is returned, hence before the
batch is appended to the relay queue.  On a payload with one unread
record, the cycle's first event is already a deletion, with the queue
append only second. -/
theorem C2_counterexample_delete_first :
    deletesOnlyAfterAppend (read_sms_thread_cycle "sms_queue" linesOneUnread)
      = false := by
  decide

/-- Claim C2 (amended): the ordering is delete-then-append: for every
message of a cycle a deletion of its index is issued before the batch
append (inside the parser), and a second deletion after it (by the
ingestion loop). -/
theorem C2_delete_precedes_append (q : String) (lines : List String)
    (h : parse_sms_message lines ≠ []) :
    ∃ k, (read_sms_thread_cycle q lines).get? k
        = some (Event.rpushBatch q (parse_sms_message lines)) ∧
      ∀ m ∈ parse_sms_message lines,
        (∃ i, i < k ∧ (read_sms_thread_cycle q lines).get? i
            = some (Event.deleteSms m.index)) ∧
        (∃ j, k < j ∧ (read_sms_thread_cycle q lines).get? j
            = some (Event.deleteSms m.index)) := by
  have hcy := read_sms_thread_cycle_eq q lines h
  refine ⟨(parse_sms_message lines).length, ?_, ?_⟩
  · rw [hcy, List.get?_append_right (by simp)]
    simp
  · intro m hmem
    obtain ⟨n, hn⟩ := List.mem_iff_get?.mp hmem
    have hnlt : n < (parse_sms_message lines).length := by
      rcases List.get?_eq_some.mp hn with ⟨hlt, _⟩
      exact hlt
    constructor
    · refine ⟨n, hnlt, ?_⟩
      rw [hcy, List.get?_append (by simpa using hnlt), List.get?_map, hn]
      rfl
    · refine ⟨(parse_sms_message lines).length + n + 1, by omega, ?_⟩
      rw [hcy, List.get?_append_right (by rw [List.length_map]; omega)]
      have hidx : (parse_sms_message lines).length + n + 1
          - ((parse_sms_message lines).map fun m => Event.deleteSms m.index).length
          = n + 1 := by
        rw [List.length_map]
        omega
      rw [hidx, List.get?_cons_succ, List.get?_map, hn]
      rfl

/-- Witness for `C2_delete_precedes_append` at a concrete payload. -/
theorem C2_delete_precedes_append_witness :
    parse_sms_message linesOneUnread ≠ [] ∧
    (∃ k, (read_sms_thread_cycle "sms_queue" linesOneUnread).get? k
        = some (Event.rpushBatch "sms_queue" (parse_sms_message linesOneUnread)) ∧
      ∀ m ∈ parse_sms_message linesOneUnread,
        (∃ i, i < k ∧ (read_sms_thread_cycle "sms_queue" linesOneUnread).get? i
            = some (Event.deleteSms m.index)) ∧
        (∃ j, k < j ∧ (read_sms_thread_cycle "sms_queue" linesOneUnread).get? j
            = some (Event.deleteSms m.index))) :=
  ⟨by decide, C2_delete_precedes_append "sms_queue" linesOneUnread (by decide)⟩

/-- Claim C3: the spec states that a record with an absent or malformed
date yields a Message with the epoch-start timestamp and never a parse
abort.  In the code the `"1/1/1970 00:00:00"` default is dead (it is
guarded by the same length test that makes the `IndexError` impossible,
and the default string does not even match the `strptime` format), and
a malformed date raises `ValueError` into the outer handler, which logs
a warning and drops the record entirely: no Message is produced at
all. -/
theorem C3_malformed_date_drops_record :
    parse_sms_message linesBadDate = [] ∧
    parse_warnings linesBadDate = 1 ∧
    strptime_yMd_HMS "1/1/1970 00:00:00" = none := by
  refine ⟨by decide, by decide, by decide⟩

/-- Claim C4 (counterexample): the spec states a header with fewer than
six comma-separated fields is discarded with a logged warning and its
following body lines are not attributed to any other record.  On this
payload the short header logs no warning, and the body line after it
("b") is appended to the previous, already flushed record — which is
then flushed a second time, duplicating it in the result. -/
theorem C4_counterexample_short_header :
    parse_sms_message linesShortHeader
        = [msgShortHeaderVictim, msgShortHeaderVictim] ∧
    parse_warnings linesShortHeader = 0 ∧
    msgShortHeaderVictim.body = "a\nb\n" := by
  refine ⟨by decide, by decide, rfl⟩

/-- Claim C4 (amended): a header line with fewer than the minimum field
count contributes no Message of its own and parsing continues, but no
warning is logged for it and the previously open record remains the
current one (store, warning count and current reference unchanged; at
most the pending flush of the previous record happens), so subsequent
body lines are appended to the previous record. -/
theorem C4_short_header_keeps_previous_open (st : ParseState) (rawLine : String)
    (hne : pyStrip rawLine ≠ "")
    (hhd : pyStartsWith "+CMGL:" (pyStrip rawLine) = true)
    (hlt : (pySplit ',' (pyStrip rawLine)).length < 6) :
    processLine st rawLine = flushMidParse st ∧
    (processLine st rawLine).current = st.current ∧
    (processLine st rawLine).warnings = st.warnings ∧
    (processLine st rawLine).store = st.store := by
  have hb : (pyStrip rawLine == "") = false := beq_eq_false_iff_ne.mpr hne
  have hmain : processLine st rawLine = flushMidParse st := by
    unfold processLine
    simp only [hb, Bool.false_eq_true, if_false, hhd, if_true]
    rw [if_neg (by omega)]
  refine ⟨hmain, ?_, ?_, ?_⟩ <;>
    rw [hmain] <;>
    have hf := flushMidParse_frame st
  · exact hf.1
  · exact hf.2.1
  · exact hf.2.2

/-- Witness for `C4_short_header_keeps_previous_open` at a concrete
state and line. -/
theorem C4_short_header_witness :
    pyStrip "+CMGL: 9,\"REC UNREAD\"" ≠ "" ∧
    pyStartsWith "+CMGL:" (pyStrip "+CMGL: 9,\"REC UNREAD\"") = true ∧
    (pySplit ',' (pyStrip "+CMGL: 9,\"REC UNREAD\"")).length < 6 ∧
    processLine initState "+CMGL: 9,\"REC UNREAD\"" = flushMidParse initState :=
  ⟨by decide, by decide, by decide,
    (C4_short_header_keeps_previous_open initState "+CMGL: 9,\"REC UNREAD\""
      (by decide) (by decide) (by decide)).1⟩

open MQTTPublisherModel in
/-- Claim C5: `publish` derives its routing key from the digits-only
form of the sender and the timestamp (every non-digit character of the
sender is stripped before the key is built), serializes the body, and
returns a boolean outcome — true exactly when the client reports the
success code; in particular sender `"+1 (555) 123-4567"` at timestamp
1700000000 publishes to topic `modem/15551234567/1700000000`. -/
theorem C5_publish_routing_key :
    (∀ (m : Msg) (rc : Nat),
      (publish m rc).topic
          = "modem/" ++ digitsOnly m.sender ++ "/" ++ toString m.timestamp ∧
      (publish m rc).payload = jsonDumpsStr m.body ∧
      (publish m rc).ok = (rc == 0)) ∧
    digitsOnly "+1 (555) 123-4567" = "15551234567" ∧
    (publish (Msg.mk "1" "REC UNREAD" "+1 (555) 123-4567" 1700000000 "hi") 0).topic
        = "modem/15551234567/1700000000" :=
  ⟨fun _ _ => ⟨rfl, rfl, rfl⟩, by decide, by decide⟩

open CheckModemPortModel in
/-- Claim C6: the spec states that when no candidate interface answers
the probe, a `NoModemFound` condition aborts startup.  In the code
`find_port` merely logs a warning and returns `None` (so the `except`
branch in `main` that would return never fires), and `main` proceeds to
initialize with `serial_port = None`: with a single candidate that
rejects the probe, discovery yields no port yet startup proceeds. -/
theorem C6_no_modem_still_proceeds :
    find_port [("/dev/ttyUSB0", ProbeBehavior.mk false false false "ERROR")] = none ∧
    mainDiscovery none [("/dev/ttyUSB0", ProbeBehavior.mk false false false "ERROR")]
        = Startup.proceedsWith none ∧
    Startup.proceedsWith none ≠ Startup.aborted := by
  refine ⟨by decide, by decide, by decide⟩

/-- Claim C7 (counterexample): the spec states a failed append or pop is
observable to the caller rather than silently swallowed.  The adapter
catches the exception, logs it and returns `None`: a `blpop` whose
underlying call raised is indistinguishable from a successful `blpop`
that timed out with no item. -/
theorem C7_counterexample_blpop_swallowed :
    RedisClientModel.blpop (Except.error "connection refused") = none ∧
    RedisClientModel.blpop (Except.ok none) = none ∧
    RedisClientModel.blpop (Except.error "connection refused")
        = RedisClientModel.blpop (Except.ok none) :=
  ⟨rfl, rfl, rfl⟩

/-- Claim C7 (amended): the adapter owns no retry logic, but it does not
re-raise either: each operation maps a raising underlying call to
`None` (after logging), so a failed `rpush` is visible only as a `None`
in place of the new length and a failed `blpop` is indistinguishable
from a pop that timed out. -/
theorem C7_adapter_returns_none_on_failure :
    (∀ e, RedisClientModel.rpush (Except.error e) = none) ∧
    (∀ n, RedisClientModel.rpush (Except.ok n) = some n) ∧
    (∀ e, RedisClientModel.blpop (Except.error e) = none) ∧
    (∀ v, RedisClientModel.blpop (Except.ok v) = v) :=
  ⟨fun _ => rfl, fun _ => rfl, fun _ => rfl, fun _ => rfl⟩

open CheckModemPortModel in
/-- Claim C8 (counterexample): the spec states the probe never returns
while still holding a candidate interface open.  There is no
`try`/`finally`: a `SerialException` raised by the write after a
successful open makes `check_at_command` return `False` with the port
still open. -/
theorem C8_counterexample_probe_leaks_port :
    check_at_command (ProbeBehavior.mk false true false "") 
        = ProbeOutcome.mk false true := by
  decide

open CheckModemPortModel in
/-- Claim C8 (amended): on the accepted and rejected outcomes — that is,
whenever opening itself failed, or the write and read both completed —
`check_at_command` returns with the candidate interface closed; only a
`SerialException` between the open and the close leaves it open. -/
theorem C8_probe_closes_port_without_midprobe_exception (b : ProbeBehavior)
    (h : b.openRaises = true ∨ (b.writeRaises = false ∧ b.readRaises = false)) :
    (check_at_command b).portLeftOpen = false := by
  unfold check_at_command
  rcases h with h | ⟨hw, hr⟩
  · simp [h]
  · cases ho : b.openRaises <;> simp [ho, hw, hr]

open CheckModemPortModel in
/-- Witness for `C8_probe_closes_port_without_midprobe_exception` on a
probe whose write and read both complete. -/
theorem C8_probe_closes_port_witness :
    ((ProbeBehavior.mk false false false "AT\x0d\nOK").openRaises = true ∨
      ((ProbeBehavior.mk false false false "AT\x0d\nOK").writeRaises = false ∧
        (ProbeBehavior.mk false false false "AT\x0d\nOK").readRaises = false)) ∧
    (check_at_command (ProbeBehavior.mk false false false "AT\x0d\nOK")).portLeftOpen
        = false :=
  ⟨Or.inr ⟨rfl, rfl⟩,
    C8_probe_closes_port_without_midprobe_exception
      (ProbeBehavior.mk false false false "AT\x0d\nOK") (Or.inr ⟨rfl, rfl⟩)⟩

/-- Claim C9: every message that survives parsing has the deletion
command for its index issued twice in one ingestion cycle — once by the
loop at the end of `_parse_sms_message` and a second time by
`read_sms_thread` after the batch append: the cycle's trace contains
exactly two deletions per occurrence of the index in the parsed
list. -/
theorem C9_each_message_deleted_twice (q : String) (lines : List String)
    (m : Msg) (hmem : m ∈ parse_sms_message lines) :
    countDelete m.index (read_sms_thread_cycle q lines)
      = 2 * (parse_sms_message lines).countP (fun x => x.index == m.index) := by
  have h : parse_sms_message lines ≠ [] := List.ne_nil_of_mem hmem
  have hfun : ((fun e => match e with
        | Event.deleteSms i => i == m.index
        | _ => false) ∘ fun x : Msg => Event.deleteSms x.index)
      = fun x : Msg => x.index == m.index := rfl
  rw [read_sms_thread_cycle_eq q lines h]
  unfold countDelete
  rw [List.countP_append, List.countP_cons, List.countP_map, hfun]
  simp
  omega

/-- Witness for `C9_each_message_deleted_twice` at a concrete payload. -/
theorem C9_each_message_deleted_twice_witness :
    msgOneUnread ∈ parse_sms_message linesOneUnread ∧
    countDelete msgOneUnread.index (read_sms_thread_cycle "sms_queue" linesOneUnread)
      = 2 * (parse_sms_message linesOneUnread).countP
          (fun x => x.index == msgOneUnread.index) :=
  ⟨by decide,
    C9_each_message_deleted_twice "sms_queue" linesOneUnread msgOneUnread (by decide)⟩

open MQTTPublisherModel in
/-- Claim C10: `publish` mutates its argument: afterwards the caller's
message carries the digits-only sender, while the index, status,
timestamp and body entries are unchanged — and this holds for every
result code the client reports. -/
theorem C10_publish_mutates_sender_only :
    ∀ (m : Msg) (rc : Nat),
      (publish m rc).message.sender = digitsOnly m.sender ∧
      (publish m rc).message.index = m.index ∧
      (publish m rc).message.status = m.status ∧
      (publish m rc).message.timestamp = m.timestamp ∧
      (publish m rc).message.body = m.body :=
  fun _ _ => ⟨rfl, rfl, rfl, rfl, rfl⟩
